import Mathlib

/-!
Verification of the NSAI_MVP analysis pipeline against its specification.

This file gives a shallow embedding, in Lean 4, of the pure computational
core of the pipeline found under `backend/app/services/`:

* the ROI calculator (`insights/roi_calculator.py`),
* the result normalizer helpers (`analysis/result_parser.py`,
  `workflow_utils.py`),
* the vision-client retry loop (`analysis/gpt4v_client.py`),
* the frame-extraction strategy and loop (`analysis/frame_extractor.py`),
* the pipeline orchestrator (`analysis/orchestrator.py`).

Conventions used throughout the embedding:

* Python floats are modelled as `ℚ`; Python ints as `ℤ` or `ℕ`.
* Python `round(x, d)` (round-half-to-even) is modelled by `pyRound`;
  Python `int(x)` (truncation toward zero) by `pyInt`.
* `dict.get(key, default)` is modelled with `Option` fields and `getD`.
* Python `sorted` (a stable sort) is modelled by a stable insertion sort.
* Wall-clock reads (`datetime.utcnow()`) are passed in explicitly as an
  opaque `now : String` argument.
* I/O-carrying values (image bytes, HTTP handles) are abstracted away;
  the metadata the code computes from them is kept.
-/

/-- Stable insertion of an element into a list: `a` is placed before the
first element `b` with `le a b`.  Used to model Python's stable `sorted`. -/
def insertStable {α : Type} (le : α → α → Bool) (a : α) : List α → List α
  | [] => [a]
  | b :: bs => if le a b then a :: b :: bs else b :: insertStable le a bs

/-- Stable insertion sort; with `le a b` meaning "`a` may come before `b`"
this reproduces Python's stable `sorted`. -/
def stableSort {α : Type} (le : α → α → Bool) : List α → List α
  | [] => []
  | a :: as => insertStable le a (stableSort le as)

/-- Python's banker's rounding (`round`) to the nearest integer:
round half to even. -/
def bankersRound (x : ℚ) : ℤ :=
  let n : ℤ := ⌊x⌋
  if x - n < 1 / 2 then n
  else if 1 / 2 < x - n then n + 1
  else if n % 2 = 0 then n else n + 1

/-- Python's `round(x, d)` for `d` decimal digits (round half to even). -/
def pyRound (d : ℕ) (x : ℚ) : ℚ :=
  (bankersRound (x * 10 ^ d) : ℚ) / 10 ^ d

/-- Python's `int(x)` on a float: truncation toward zero. -/
def pyInt (q : ℚ) : ℤ :=
  if q < 0 then -⌊-q⌋ else ⌊q⌋

/-- Insert thousands separators into a reversed digit string;
`k` counts digits already emitted in the current group. -/
def commaRev : List Char → ℕ → List Char
  | [], _ => []
  | c :: cs, k =>
    if k = 3 then ',' :: c :: commaRev cs 1
    else c :: commaRev cs (k + 1)

/-- Format a natural number with thousands separators (`"{:,}"`). -/
def fmtNatComma (n : ℕ) : String :=
  String.mk (commaRev (toString n).data.reverse 0).reverse

/-- Python's `"{:,.0f}"` format: round to an integer, group by thousands. -/
def fmtComma0 (x : ℚ) : String :=
  let r := bankersRound x
  if r < 0 then "-" ++ fmtNatComma r.natAbs else fmtNatComma r.natAbs

/-- Python's `"{:.0f}"` format: round to an integer. -/
def fmt0 (x : ℚ) : String :=
  toString (bankersRound x)

/-- Python's `"{:.1f}"` format: round to one decimal digit. -/
def fmt1 (x : ℚ) : String :=
  let n := bankersRound (x * 10)
  let sgn := if n < 0 then "-" else ""
  let a := n.natAbs
  sgn ++ toString (a / 10) ++ "." ++ toString (a % 10)

/-- Python's `pat in s` substring test on strings: `pat` occurs as a
contiguous run of characters of `s`. -/
def containsSub (s pat : String) : Bool :=
  (List.range (s.data.length + 1)).any (fun i => pat.data.isPrefixOf (s.data.drop i))

/-- Python's `str.lower()`: lower-case every character. -/
def pyLower (s : String) : String :=
  String.mk (s.data.map Char.toLower)

/-! ## ROI calculator (`insights/roi_calculator.py`, class `ROICalculator`) -/

/-- `ROICalculator.DEFAULT_HOURLY_RATE`. -/
def DEFAULT_HOURLY_RATE : ℚ := 25

/-- `ROICalculator.DEFAULT_WORKING_DAYS`. -/
def DEFAULT_WORKING_DAYS : ℚ := 250

/-- `ROICalculator.DEFAULT_WORKING_HOURS`. -/
def DEFAULT_WORKING_HOURS : ℚ := 8

/-- `ROICalculator.IMPLEMENTATION_COSTS`: a dict keyed by
`"simple"`, `"moderate"`, `"complex"`; `none` models a missing key. -/
def IMPLEMENTATION_COSTS (key : String) : Option ℚ :=
  if key = "simple" then some 5000
  else if key = "moderate" then some 15000
  else if key = "complex" then some 50000
  else none

/-- `ROICalculator.AUTOMATION_EFFICIENCY`: a dict keyed by
`"high"`, `"medium"`, `"low"`. -/
def AUTOMATION_EFFICIENCY (key : String) : Option ℚ :=
  if key = "high" then some 0.95
  else if key = "medium" then some 0.75
  else if key = "low" then some 0.5
  else none

/-- An opportunity dict as consumed by `_calculate_opportunity_metrics`;
every field the code reads with `.get` is an `Option`. -/
structure Opportunity where
  time_saved_daily_minutes : Option ℚ := none
  frequency_daily : Option ℚ := none
  time_per_occurrence_minutes : Option ℚ := none
  implementation_complexity : Option String := none
  automation_potential : Option String := none
  description : Option String := none
  workflow_type : Option String := none
  recommendation : Option String := none
  specific_recommendation : Option String := none

/-- The `daily_minutes` local of `_calculate_opportunity_metrics`:
`time_saved_daily_minutes` defaulting to 0, recomputed from
`frequency_daily * time_per_occurrence_minutes` when it is 0. -/
def opp_daily_minutes (opp : Opportunity) : ℚ :=
  let dm := opp.time_saved_daily_minutes.getD 0
  if dm = 0 then (opp.frequency_daily.getD 1) * (opp.time_per_occurrence_minutes.getD 0)
  else dm

/-- The `complexity` local: `opportunity.get("implementation_complexity", "moderate")`. -/
def opp_complexity (opp : Opportunity) : String :=
  opp.implementation_complexity.getD "moderate"

/-- The `potential` local: `opportunity.get("automation_potential", "medium")`. -/
def opp_potential (opp : Opportunity) : String :=
  opp.automation_potential.getD "medium"

/-- The `efficiency` local: `AUTOMATION_EFFICIENCY.get(potential, 0.75)`. -/
def opp_efficiency (opp : Opportunity) : ℚ :=
  (AUTOMATION_EFFICIENCY (opp_potential opp)).getD 0.75

/-- The `actual_daily_minutes` local: `daily_minutes * efficiency`. -/
def opp_actual_daily_minutes (opp : Opportunity) : ℚ :=
  opp_daily_minutes opp * opp_efficiency opp

/-- The `implementation_cost` local:
`IMPLEMENTATION_COSTS.get(complexity.lower(), 15000)`. -/
def opp_implementation_cost (opp : Opportunity) : ℚ :=
  (IMPLEMENTATION_COSTS (pyLower (opp_complexity opp))).getD 15000

/-- The `annual_hours` local: `actual_daily_minutes / 60 * DEFAULT_WORKING_DAYS`. -/
def opp_annual_hours (opp : Opportunity) : ℚ :=
  opp_actual_daily_minutes opp / 60 * DEFAULT_WORKING_DAYS

/-- The `annual_savings` local: `annual_hours * hourly_rate`. -/
def opp_annual_savings (opp : Opportunity) (hourly_rate : ℚ) : ℚ :=
  opp_annual_hours opp * hourly_rate

/-- The per-opportunity metrics dict returned by
`_calculate_opportunity_metrics`. -/
structure OppMetrics where
  description : String
  daily_minutes_saved : ℚ
  annual_hours_saved : ℚ
  annual_cost_savings : ℚ
  implementation_cost : ℚ
  implementation_complexity : String
  automation_potential : String
  roi_percentage : ℚ
  payback_months : ℚ
  efficiency_factor : ℚ
  recommendation : String

/-- `ROICalculator._calculate_opportunity_metrics`. -/
def _calculate_opportunity_metrics (opp : Opportunity) (hourly_rate : ℚ) : OppMetrics :=
  let annual_savings := opp_annual_savings opp hourly_rate
  let implementation_cost := opp_implementation_cost opp
  let roi := if 0 < annual_savings ∧ 0 < implementation_cost then
      ((annual_savings - implementation_cost) / implementation_cost) * 100 else 0
  let payback := if 0 < annual_savings ∧ 0 < implementation_cost then
      implementation_cost / (annual_savings / 12) else 0
  { description := match opp.description with
      | some d => d
      | none => opp.workflow_type.getD "Unknown"
    daily_minutes_saved := pyRound 1 (opp_actual_daily_minutes opp)
    annual_hours_saved := pyRound 1 (opp_annual_hours opp)
    annual_cost_savings := pyRound 2 annual_savings
    implementation_cost := implementation_cost
    implementation_complexity := opp_complexity opp
    automation_potential := opp_potential opp
    roi_percentage := pyRound 1 roi
    payback_months := pyRound 1 payback
    efficiency_factor := opp_efficiency opp
    recommendation := match opp.recommendation with
      | some r => r
      | none => opp.specific_recommendation.getD "" }

/-- The effective hourly rate of `calculate_roi`:
`hourly_rate or DEFAULT_HOURLY_RATE` (Python `or`, so a rate of 0 is
replaced by the default as well, while negative rates pass through). -/
def effective_hourly_rate (hourly_rate : Option ℚ) : ℚ :=
  match hourly_rate with
  | none => DEFAULT_HOURLY_RATE
  | some r => if r = 0 then DEFAULT_HOURLY_RATE else r

/-- The `total_daily_minutes_saved` accumulator of `calculate_roi`: the sum
of the (rounded) `daily_minutes_saved` metric over all opportunities. -/
def total_daily_minutes_saved (opps : List Opportunity) : ℚ :=
  (opps.map (fun o => pyRound 1 (opp_actual_daily_minutes o))).sum

/-- The `total_implementation_cost` accumulator of `calculate_roi`. -/
def total_implementation_cost (opps : List Opportunity) : ℚ :=
  (opps.map opp_implementation_cost).sum

/-- The `total_annual_hours_saved` local of `calculate_roi`. -/
def total_annual_hours_saved (opps : List Opportunity) : ℚ :=
  total_daily_minutes_saved opps / 60 * DEFAULT_WORKING_DAYS

/-- The `monthly_savings` local of `calculate_roi`:
`total_daily_hours_saved * 20 * hourly_rate`. -/
def monthly_savings_agg (opps : List Opportunity) (rate : ℚ) : ℚ :=
  total_daily_minutes_saved opps / 60 * 20 * rate

/-- The `annual_savings` local of `calculate_roi`. -/
def annual_savings_agg (opps : List Opportunity) (rate : ℚ) : ℚ :=
  total_annual_hours_saved opps * rate

/-- The `payback_months` local of `calculate_roi`: guarded by
`monthly_savings > 0 and total_implementation_cost > 0`, else 0. -/
def payback_months_agg (opps : List Opportunity) (rate : ℚ) : ℚ :=
  if 0 < monthly_savings_agg opps rate ∧ 0 < total_implementation_cost opps then
    total_implementation_cost opps / monthly_savings_agg opps rate
  else 0

/-- The `roi_percentage` local of `calculate_roi` (same guard, before the
one-decimal rounding applied when the result dict is assembled). -/
def roi_percentage_agg (opps : List Opportunity) (rate : ℚ) : ℚ :=
  if 0 < monthly_savings_agg opps rate ∧ 0 < total_implementation_cost opps then
    ((annual_savings_agg opps rate - total_implementation_cost opps) /
      total_implementation_cost opps) * 100
  else 0

/-- `ROICalculator._determine_priority`. -/
def _determine_priority (annual_savings implementation_cost payback_months : ℚ) : String :=
  if payback_months ≤ 3 then "immediate"
  else if payback_months ≤ 6 ∧ 50000 < annual_savings then "high"
  else if payback_months ≤ 12 then "medium"
  else if implementation_cost * 2 < annual_savings then "strategic"
  else "low"

/-- `ROICalculator._generate_executive_summary`. -/
def _generate_executive_summary (annual_hours annual_savings implementation_cost
    payback_months : ℚ) (opportunity_count : ℕ) : String :=
  if annual_savings = 0 then
    "No significant automation opportunities identified in this recording."
  else
    let fte_equivalent := annual_hours / (DEFAULT_WORKING_HOURS * DEFAULT_WORKING_DAYS)
    let s := "Analysis identified " ++ toString opportunity_count ++
      " automation opportunities " ++ "that could save " ++ fmtComma0 annual_hours ++
      " hours annually " ++ "(equivalent to " ++ fmt1 fte_equivalent ++ " FTE). " ++
      "This represents $" ++ fmtComma0 annual_savings ++ " in cost savings per year. "
    if 0 < implementation_cost then
      s ++ "With an estimated implementation cost of $" ++ fmtComma0 implementation_cost ++
        ", " ++ "the investment would pay back in " ++ fmt1 payback_months ++ " months."
    else s

/-- The descending-by-ROI comparison used by `_generate_recommendations`
(`sorted(..., key=roi_percentage, reverse=True)`, a stable sort). -/
def roiDescLe (a b : OppMetrics) : Bool :=
  decide (b.roi_percentage ≤ a.roi_percentage)

/-- `ROICalculator._generate_recommendations`. -/
def _generate_recommendations (opportunities : List OppMetrics)
    (budget : Option ℚ) : List String :=
  let sorted_opps := stableSort roiDescLe opportunities
  let quick_wins := sorted_opps.filter (fun o => o.payback_months ≤ 3)
  let r1 := if quick_wins.isEmpty then [] else
    ["Start with " ++ toString quick_wins.length ++
      " quick win(s) that pay back in under 3 months: " ++
      String.intercalate ", " ((quick_wins.take 3).map OppMetrics.description)]
  let high_roi := sorted_opps.filter (fun o => 200 < o.roi_percentage)
  let r2 := match high_roi with
    | [] => []
    | o :: _ => ["Focus on high-ROI opportunities with " ++ fmt0 o.roi_percentage ++
        "% return: " ++ o.description]
  let r3 := match budget with
    | none => []
    | some b =>
      if b = 0 then [] else
        let within_budget := sorted_opps.filter (fun o => o.implementation_cost ≤ b)
        if within_budget.isEmpty then [] else
          ["Within $" ++ fmtComma0 b ++ " budget, you can automate " ++
            toString within_budget.length ++ " workflows " ++ "for $" ++
            fmtComma0 ((within_budget.map OppMetrics.annual_cost_savings).sum) ++
            " annual savings"]
  let total_annual_savings := (opportunities.map OppMetrics.annual_cost_savings).sum
  let r4 := if 100000 < total_annual_savings then
    ["Consider a phased automation program to capture the full value potential"] else []
  (r1 ++ r2 ++ r3 ++ r4).take 4

/-- The `time_savings` sub-dict of the ROI result. -/
structure TimeSavings where
  daily_hours : ℚ
  weekly_hours : ℚ
  monthly_hours : ℚ
  annual_hours : ℚ
  percentage_of_workday : ℚ

/-- The `cost_savings` sub-dict of the ROI result. -/
structure CostSavings where
  daily_usd : ℚ
  weekly_usd : ℚ
  monthly_usd : ℚ
  annual_usd : ℚ
  hourly_rate_used : ℚ

/-- The `implementation` sub-dict of the ROI result. -/
structure ImplementationInfo where
  total_cost_usd : ℚ
  payback_period_months : ℚ
  roi_percentage : ℚ
  priority : String
  within_budget : Bool

/-- The dict returned by `ROICalculator.calculate_roi`. -/
structure ROIResult where
  success : Bool
  timestamp : String
  time_savings : TimeSavings
  cost_savings : CostSavings
  implementation : ImplementationInfo
  opportunities : List OppMetrics
  executive_summary : String
  recommendations : List String

/-- `ROICalculator._empty_roi_result` (the wall-clock read is the `now`
argument). -/
def _empty_roi_result (now : String) : ROIResult :=
  { success := true
    timestamp := now
    time_savings :=
      ⟨0, 0, 0, 0, 0⟩
    cost_savings :=
      ⟨0, 0, 0, 0, DEFAULT_HOURLY_RATE⟩
    implementation :=
      ⟨0, 0, 0, "none", true⟩
    opportunities := []
    executive_summary := "No automation opportunities identified in this recording."
    recommendations := [] }

/-- `ROICalculator.calculate_roi`; `opportunities` is
`analysis_results.get("automation_opportunities", [])` and `now` the
wall-clock reading used for the `timestamp` field. -/
def calculate_roi (opportunities : List Opportunity)
    (hourly_rate implementation_budget : Option ℚ) (now : String) : ROIResult :=
  let rate := effective_hourly_rate hourly_rate
  if opportunities.isEmpty then _empty_roi_result now
  else
    let opportunity_metrics := opportunities.map (fun o => _calculate_opportunity_metrics o rate)
    let total_daily_hours := total_daily_minutes_saved opportunities / 60
    let total_cost := total_implementation_cost opportunities
    let annual_savings := annual_savings_agg opportunities rate
    let payback_months := payback_months_agg opportunities rate
    let roi_percentage := roi_percentage_agg opportunities rate
    let priority := _determine_priority annual_savings total_cost payback_months
    let within_budget := match implementation_budget with
      | none => true
      | some b => total_cost ≤ b
    { success := true
      timestamp := now
      time_savings :=
        ⟨pyRound 2 total_daily_hours,
          pyRound 2 (total_daily_hours * 5),
          pyRound 2 (total_daily_hours * 20),
          pyRound 2 (total_daily_hours * DEFAULT_WORKING_DAYS),
          pyRound 1 (total_daily_hours / DEFAULT_WORKING_HOURS * 100)⟩
      cost_savings :=
        ⟨pyRound 2 (total_daily_hours * rate),
          pyRound 2 (total_daily_hours * 5 * rate),
          pyRound 2 (total_daily_hours * 20 * rate),
          pyRound 2 annual_savings,
          rate⟩
      implementation :=
        ⟨pyRound 2 total_cost,
          pyRound 1 payback_months,
          pyRound 1 roi_percentage,
          priority,
          within_budget⟩
      opportunities := opportunity_metrics
      executive_summary := _generate_executive_summary
        (total_daily_hours * DEFAULT_WORKING_DAYS) annual_savings total_cost
        payback_months opportunities.length
      recommendations := _generate_recommendations opportunity_metrics implementation_budget }

/-- The projection of an ROI result onto the `ROIResult` fields of the
specification's data model (everything but the wall-clock `timestamp`
metadata), used to compare two invocations made at different times. -/
def stripTimestamp (r : ROIResult) : ROIResult :=
  { r with timestamp := "" }

/-! ## Result normalizer helpers (`analysis/result_parser.py`,
`services/workflow_utils.py`, settings from `core/config.py`) -/

/-- `settings.HIGH_PRIORITY_WORKFLOW_TYPES`. -/
def HIGH_PRIORITY_WORKFLOW_TYPES : List String :=
  ["data_entry", "processing"]

/-- `WorkflowTypeDetector.calculate_priority_score`: the repetitive score,
boosted by 1.3 for high-priority workflow types, plus a time factor capped
at 0.5, with the sum capped at 1.0 (there is no lower cap). -/
def calculate_priority_score (workflow_type : String) (repetitive_score : ℚ)
    (time_percentage : ℚ) : ℚ :=
  let base_score := if workflow_type ∈ HIGH_PRIORITY_WORKFLOW_TYPES then
    repetitive_score * 1.3 else repetitive_score
  let time_factor := min (time_percentage / 100) 0.5
  min (base_score + time_factor) 1

/-- The `potential_scores` dict of `ResultParser._calculate_priority`. -/
def potential_scores (key : String) : Option ℕ :=
  if key = "high" then some 3
  else if key = "medium" then some 2
  else if key = "low" then some 1
  else none

/-- The `complexity_scores` dict of `ResultParser._calculate_priority`. -/
def complexity_scores (key : String) : Option ℕ :=
  if key = "low" then some 3
  else if key = "medium" then some 2
  else if key = "high" then some 1
  else none

/-- `ResultParser._calculate_priority`: opportunity priority on a 0-100
scale; `math.sqrt` forces the codomain into the reals. -/
noncomputable def _calculate_priority (potential complexity : String)
    (daily_savings : ℚ) : ℝ :=
  let potential_score := (potential_scores (pyLower potential)).getD 2
  let complexity_score := (complexity_scores (pyLower complexity)).getD 2
  let priority : ℝ := (potential_score : ℝ) * (complexity_score : ℝ) *
    Real.sqrt (max 1 (daily_savings : ℝ))
  min 100 (priority * 10)

/-- One entry of the `continuous_ranges` list built by
`_find_continuous_ranges` (the Python dict key `end` is called `stop`
here because `end` is a Lean keyword). -/
structure FrameRange where
  start : ℤ
  stop : ℤ
  duration : ℤ
deriving DecidableEq

/-- The loop of `ResultParser._find_continuous_ranges` over the sorted
tail, carrying the current `start`/`end` range. -/
def rangesLoop (start stop : ℤ) : List ℤ → List FrameRange
  | [] => [⟨start, stop, stop - start + 1⟩]
  | f :: fs =>
    if f = stop + 1 then rangesLoop start f fs
    else ⟨start, stop, stop - start + 1⟩ :: rangesLoop f f fs

/-- `ResultParser._find_continuous_ranges`. -/
def _find_continuous_ranges (frames : List ℤ) : List FrameRange :=
  match stableSort (fun a b => decide (a ≤ b)) frames with
  | [] => []
  | f :: fs => rangesLoop f f fs

/-- `ResultParser._format_duration`. -/
def _format_duration (seconds : ℕ) : String :=
  if seconds < 60 then toString seconds ++ "s"
  else
    let minutes := seconds / 60
    let remaining_seconds := seconds % 60
    if remaining_seconds = 0 then toString minutes ++ "m"
    else toString minutes ++ "m " ++ toString remaining_seconds ++ "s"

/-- The time-statistics dict returned by `_calculate_time_from_frames`. -/
structure TimeStats where
  seconds : ℕ
  formatted : String
  frame_count : ℕ
  continuous_ranges : List FrameRange
deriving DecidableEq

/-- `ResultParser._calculate_time_from_frames`: frames are one second
apart by convention, so the reconstructed duration is the length of the
`visible_in_frames` list. -/
def _calculate_time_from_frames (frame_list : List ℤ) : TimeStats :=
  if frame_list.isEmpty then
    { seconds := 0, formatted := "0s", frame_count := 0, continuous_ranges := [] }
  else
    { seconds := frame_list.length
      formatted := _format_duration frame_list.length
      frame_count := frame_list.length
      continuous_ranges := _find_continuous_ranges frame_list }

/-! ## Vision client retry loop (`analysis/gpt4v_client.py`,
class `GPT4VClient`) -/

/-- `GPT4VClient.max_retries`. -/
def gpt_max_retries : ℕ := 3

/-- `GPT4VClient.retry_delay` (the initial backoff delay, in seconds). -/
def gpt_retry_delay : ℚ := 2

/-- The observable behaviour of one `_call_with_retry` run: how many
attempts were made, which backoff delays were slept (in order), and the
returned response (`none` models the `return None` after exhaustion). -/
structure RetryTrace (R : Type) where
  attempts : ℕ
  delays : List ℚ
  result : Option R
deriving DecidableEq

/-- The `for attempt in range(max_retries)` loop of `_call_with_retry`:
`f k` is the outcome of the API call on attempt `k` (an `Except` models
Python raising), `fuel` is the number of attempts still allowed.  A delay
of `base * 2 ^ attempt` is slept only when another attempt follows. -/
def retryLoop {E R : Type} (f : ℕ → Except E R) (base : ℚ) :
    ℕ → ℕ → RetryTrace R
  | 0, _ => ⟨0, [], none⟩
  | fuel + 1, attempt =>
    match f attempt with
    | Except.ok r => ⟨1, [], some r⟩
    | Except.error _ =>
      match fuel with
      | 0 => ⟨1, [], none⟩
      | fuel2 + 1 =>
        let rest := retryLoop f base (fuel2 + 1) (attempt + 1)
        ⟨rest.attempts + 1, base * 2 ^ attempt :: rest.delays, rest.result⟩

/-- `GPT4VClient._call_with_retry` as a trace of attempts and delays. -/
def _call_with_retry {E R : Type} (f : ℕ → Except E R) : RetryTrace R :=
  retryLoop f gpt_retry_delay gpt_max_retries 0

/-- The error classification of the `except` block of `_call_with_retry`
(the `if "invalid_request_error" ... elif "rate_limit" ... elif
"context_length"` chain); in the source this classification only selects
a log message and never influences whether a retry happens. -/
def classify_error (error_msg : String) : String :=
  if containsSub (pyLower error_msg) "invalid_request_error" then "malformed_request"
  else if containsSub (pyLower error_msg) "rate_limit" then "rate_limit"
  else if containsSub (pyLower error_msg) "context_length" then "context_length"
  else "other"

/-! ## Frame extractor (`analysis/frame_extractor.py`, class
`FrameExtractor`; configuration constants from `core/config.py`) -/

/-- `settings.DEFAULT_FRAMES_PER_SECOND`. -/
def DEFAULT_FRAMES_PER_SECOND : ℚ := 1

/-- `settings.DEFAULT_MAX_FRAMES_PER_VIDEO`. -/
def DEFAULT_MAX_FRAMES_PER_VIDEO : ℕ := 120

/-- `settings.DEFAULT_SCENE_CHANGE_THRESHOLD`. -/
def DEFAULT_SCENE_CHANGE_THRESHOLD : ℚ := 0.2

/-- `settings.COST_PER_GPT4V_REQUEST`. -/
def COST_PER_GPT4V_REQUEST : ℚ := 0.01

/-- The custom `extraction_settings` dict an API request may supply
(each key read with `.get`, so each field is optional). -/
structure ExtractionSettingsIn where
  fps : Option ℚ := none
  max_frames : Option ℕ := none
  scene_threshold : Option ℚ := none

/-- The strategy dict built by `_calculate_extraction_strategy`.
`estimated_frame_count` is the *unclamped* `target_frames` local (before
`max(5, ...)`), exactly as the source stores it. -/
structure ExtractionStrategy where
  method : String
  interval_seconds : ℚ
  frames_per_second : ℚ
  target_frames : ℕ
  max_frames : ℕ
  scene_threshold : ℚ
  duration_seconds : ℤ
  scene_detection : Bool
  focus_areas : List String
  extraction_mode : String
  estimated_frame_count : ℤ
  estimated_cost : ℚ

/-- `FrameExtractor._calculate_extraction_strategy`; `mode` is
`settings.FRAME_EXTRACTION_MODE` ("testing" uses the standard defaults,
anything else the "quick" preset `{fps: 0.33, max_frames: 50,
scene_threshold: 0.3}`). -/
def _calculate_extraction_strategy (mode : String) (duration_seconds : ℤ)
    (extraction_settings : Option ExtractionSettingsIn) : ExtractionStrategy :=
  let frames_per_second := match extraction_settings with
    | some es => es.fps.getD DEFAULT_FRAMES_PER_SECOND
    | none => if mode = "testing" then DEFAULT_FRAMES_PER_SECOND else 0.33
  let max_frames : ℕ := match extraction_settings with
    | some es => es.max_frames.getD DEFAULT_MAX_FRAMES_PER_VIDEO
    | none => if mode = "testing" then DEFAULT_MAX_FRAMES_PER_VIDEO else 50
  let scene_threshold := match extraction_settings with
    | some es => es.scene_threshold.getD DEFAULT_SCENE_CHANGE_THRESHOLD
    | none => if mode = "testing" then DEFAULT_SCENE_CHANGE_THRESHOLD else 0.3
  let interval_seconds := 1 / frames_per_second
  let target_frames : ℤ :=
    min (max_frames : ℤ) (pyInt ((duration_seconds : ℚ) * frames_per_second))
  { method := "interval_based"
    interval_seconds := interval_seconds
    frames_per_second := frames_per_second
    target_frames := (max 5 target_frames).toNat
    max_frames := max_frames
    scene_threshold := scene_threshold
    duration_seconds := duration_seconds
    scene_detection := false
    focus_areas := ["email_interface", "wms_forms", "data_entry"]
    extraction_mode := mode
    estimated_frame_count := target_frames
    estimated_cost := (target_frames : ℚ) * COST_PER_GPT4V_REQUEST }

/-- The `self.max_frames` instance attribute set in
`FrameExtractor.__init__` from the extraction mode. -/
def instance_max_frames (mode : String) : ℕ :=
  if mode = "testing" then 60 else 30

/-- The FPS validation of `_extract_frames_smart`: fall back to 30 when
the reported FPS is non-positive or above 120. -/
def validated_fps (raw_fps : ℚ) : ℚ :=
  if raw_fps ≤ 0 ∨ 120 < raw_fps then 30 else raw_fps

/-- One frame's metadata as built by `_prepare_frame_for_gpt4v` (the
JPEG/base64 image payload and pixel dimensions are binary data outside
this embedding and are omitted). -/
structure FrameData where
  sequence_number : ℕ
  frame_index : ℤ
  timestamp_seconds : ℚ
  timestamp_formatted : String

/-- Zero-padding to width 2 (`"{:02d}"`). -/
def pad2 (n : ℤ) : String :=
  let s := toString n
  if s.length < 2 then "0" ++ s else s

/-- `FrameExtractor._format_timestamp`: format seconds as `MM:SS`
(`int(seconds // 60)` and `int(seconds % 60)`). -/
def _format_timestamp (seconds : ℚ) : String :=
  let minutes : ℤ := ⌊seconds / 60⌋
  let secs : ℤ := ⌊seconds - 60 * (⌊seconds / 60⌋ : ℚ)⌋
  pad2 minutes ++ ":" ++ pad2 secs

/-- `FrameExtractor._prepare_frame_for_gpt4v` (metadata part). -/
def _prepare_frame_for_gpt4v (frame_index : ℤ) (fps : ℚ)
    (sequence_number : ℕ) : FrameData :=
  let timestamp_seconds := if 0 < fps then (frame_index : ℚ) / fps else 0
  { sequence_number := sequence_number
    frame_index := frame_index
    timestamp_seconds := pyRound 2 timestamp_seconds
    timestamp_formatted := _format_timestamp timestamp_seconds }

/-- The index-generation loop of `_extract_frames_smart`: for
`i in range(target_frames)` take `time_position = i * interval`, stop at
the video's end, and keep `int(time_position * fps)` when it is below
`total_frames`.  `fuel` is the number of loop iterations left. -/
def generate_frame_indices (interval_seconds fps video_duration : ℚ)
    (total_frames : ℕ) : ℕ → ℕ → List ℤ
  | 0, _ => []
  | fuel + 1, i =>
    let time_position := (i : ℚ) * interval_seconds
    if video_duration ≤ time_position then []
    else
      let frame_index := pyInt (time_position * fps)
      if frame_index < (total_frames : ℤ) then
        frame_index ::
          generate_frame_indices interval_seconds fps video_duration total_frames fuel (i + 1)
      else
        generate_frame_indices interval_seconds fps video_duration total_frames fuel (i + 1)

/-- The frame-reading loop of `_extract_frames_smart` over the
enumerated candidate indices.  `read fi` tells whether `cap.read()`
succeeded at index `fi`; `scene_skip fi` is the (oracle) outcome of the
histogram scene-change test `change_ratio < threshold`, consulted only
when `scene_detection` is on and a previous frame exists (`0 < count`);
`inst_max` is the instance-level `self.max_frames` cost cap that breaks
the loop once reached. -/
def extract_loop (read : ℤ → Bool) (scene_detection : Bool)
    (scene_skip : ℤ → Bool) (fps : ℚ) (inst_max : ℕ) :
    List (ℕ × ℤ) → ℕ → List FrameData
  | [], _ => []
  | (idx, frame_idx) :: rest, count =>
    if read frame_idx = false then
      extract_loop read scene_detection scene_skip fps inst_max rest count
    else if scene_detection ∧ 0 < count ∧ scene_skip frame_idx then
      extract_loop read scene_detection scene_skip fps inst_max rest count
    else
      let fd := _prepare_frame_for_gpt4v frame_idx fps idx
      if inst_max ≤ count + 1 then [fd]
      else fd :: extract_loop read scene_detection scene_skip fps inst_max rest (count + 1)

/-- `FrameExtractor._extract_frames_smart`: the video source is
abstracted by its reported FPS, its total frame count, and the
`read`/`scene_skip` oracles. -/
def _extract_frames_smart (strategy : ExtractionStrategy) (raw_fps : ℚ)
    (total_frames : ℕ) (read : ℤ → Bool) (scene_skip : ℤ → Bool)
    (inst_max : ℕ) : List FrameData :=
  let fps := validated_fps raw_fps
  if total_frames = 0 then []
  else
    let video_duration := (total_frames : ℚ) / fps
    let frame_indices := generate_frame_indices strategy.interval_seconds fps
      video_duration total_frames strategy.target_frames 0
    extract_loop read strategy.scene_detection scene_skip fps inst_max
      frame_indices.enum 0

/-! ## Pipeline orchestrator (`analysis/orchestrator.py`, class
`AnalysisOrchestrator`) -/

/-- The outcome of calling one pipeline stage: either the value it
returned, or the message of the exception it raised (caught by the
`try/except` in `analyze_recording`). -/
inductive StageOutcome (α : Type) where
  | ok (value : α)
  | raised (msg : String)

/-- The dict returned by `extract_frames_from_recording`: on internal
failure it carries an `error` key (and an empty frame list). -/
structure FrameExtractionResult where
  error : Option String := none
  frames : List FrameData := []
  extraction_strategy : Option ExtractionStrategy := none
  estimated_gpt4v_cost : ℚ := 0

/-- The `usage` sub-dict of a GPT-4V response. -/
structure GptUsage where
  total_tokens : ℕ := 0

/-- The dict returned by `GPT4VClient.analyze_frames` as consumed by the
orchestrator. -/
structure GptResult where
  success : Bool
  error : Option String := none
  usage : Option GptUsage := none

/-- The dict returned by `ResultParser.parse_analysis_result` as consumed
by the orchestrator; the payload types are opaque to the orchestrator,
which only moves them into the final envelope. -/
structure ParsedResult (W O TA I S : Type) where
  success : Bool
  error : Option String := none
  workflows : List W := []
  automation_opportunities : List O := []
  time_analysis : Option TA := none
  insights : List I := []
  summary : Option S := none
  confidence_score : ℚ := 0

/-- One entry appended to `pipeline_status["steps_completed"]`. -/
inductive PipelineStep where
  | frame_extraction (frame_count : ℕ) (completed_at : String)
  | gpt4v_analysis (tokens_used : ℕ) (completed_at : String)
  | result_parsing (workflows_found opportunities_found : ℕ) (completed_at : String)

/-- The `pipeline_status` dict threaded through `analyze_recording`. -/
structure PipelineStatus where
  session_id : String
  started_at : String
  analysis_type : String
  steps_completed : List PipelineStep

/-- The error-envelope `summary` is a fixed zeroed dict, while the
success envelope carries the parser's summary payload. -/
inductive SummaryField (S : Type) where
  | parsed (s : S)
  | zeroed

/-- The `frame_analysis` sub-dict of the success envelope. -/
structure FrameAnalysis where
  frames_analyzed : ℕ
  extraction_strategy : Option ExtractionStrategy
  estimated_cost : ℚ

/-- The envelope returned by `analyze_recording` (union of the success
shape and the `_create_error_result` shape; fields present in only one of
the two are `Option`/defaulted). -/
structure AnalysisEnvelope (W O TA I S : Type) where
  success : Bool
  session_id : String
  error : Option String
  analysis_type : Option String
  processing_time_seconds : Option ℚ
  frame_analysis : Option FrameAnalysis
  workflows : List W
  automation_opportunities : List O
  time_analysis : Option TA
  insights : List I
  summary : SummaryField S
  confidence_score : Option ℚ
  pipeline_status : PipelineStatus
  processing_cost : ℚ

/-- `AnalysisOrchestrator._calculate_total_cost`. -/
def _calculate_total_cost (frame_count tokens_used : ℕ) : ℚ :=
  let frame_cost := (frame_count : ℚ) * COST_PER_GPT4V_REQUEST
  let token_cost := ((tokens_used : ℚ) / 1000) * 0.02
  pyRound 4 (frame_cost + token_cost)

/-- `AnalysisOrchestrator._create_error_result`. -/
def _create_error_result {W O TA I S : Type} (session_id error_message : String)
    (pipeline_status : PipelineStatus) : AnalysisEnvelope W O TA I S :=
  { success := false
    session_id := session_id
    error := some error_message
    analysis_type := none
    processing_time_seconds := none
    frame_analysis := none
    workflows := []
    automation_opportunities := []
    time_analysis := none
    insights := []
    summary := SummaryField.zeroed
    confidence_score := none
    pipeline_status := pipeline_status
    processing_cost := 0 }

/-- `AnalysisOrchestrator.analyze_recording`: the three stage calls are
supplied as `StageOutcome`s (a `raised` outcome is what the surrounding
`try/except Exception` catches); `now` stands for the wall-clock readings
and `processing_time` for the measured elapsed seconds. -/
def analyze_recording {W O TA I S : Type} (session_id analysis_type : String)
    (frame_call : StageOutcome FrameExtractionResult)
    (gpt_call : StageOutcome GptResult)
    (parse_call : StageOutcome (ParsedResult W O TA I S))
    (now : String) (processing_time : ℚ) : AnalysisEnvelope W O TA I S :=
  let status0 : PipelineStatus :=
    { session_id := session_id, started_at := now,
      analysis_type := analysis_type, steps_completed := [] }
  match frame_call with
  | StageOutcome.raised m =>
    _create_error_result session_id ("Analysis pipeline error: " ++ m) status0
  | StageOutcome.ok frame_result =>
    match frame_result.error with
    | some e =>
      _create_error_result session_id ("Frame extraction failed: " ++ e) status0
    | none =>
      let frames := frame_result.frames
      if frames.isEmpty then
        _create_error_result session_id
          "No frames could be extracted from the recording" status0
      else
        let status1 : PipelineStatus := { status0 with
          steps_completed := status0.steps_completed ++
            [PipelineStep.frame_extraction frames.length now] }
        match gpt_call with
        | StageOutcome.raised m =>
          _create_error_result session_id ("Analysis pipeline error: " ++ m) status1
        | StageOutcome.ok gpt_result =>
          if gpt_result.success = false then
            _create_error_result session_id
              ("AI analysis failed: " ++ (gpt_result.error.getD "")) status1
          else
            let tokens := (gpt_result.usage.getD {}).total_tokens
            let status2 : PipelineStatus := { status1 with
              steps_completed := status1.steps_completed ++
                [PipelineStep.gpt4v_analysis tokens now] }
            match parse_call with
            | StageOutcome.raised m =>
              _create_error_result session_id ("Analysis pipeline error: " ++ m) status2
            | StageOutcome.ok parsed_result =>
              if parsed_result.success = false then
                _create_error_result session_id
                  ("Result parsing failed: " ++ (parsed_result.error.getD "")) status2
              else
                let status3 : PipelineStatus := { status2 with
                  steps_completed := status2.steps_completed ++
                    [PipelineStep.result_parsing parsed_result.workflows.length
                      parsed_result.automation_opportunities.length now] }
                { success := true
                  session_id := session_id
                  error := none
                  analysis_type := some analysis_type
                  processing_time_seconds := some (pyRound 2 processing_time)
                  frame_analysis := some
                    ⟨frames.length, frame_result.extraction_strategy,
                      frame_result.estimated_gpt4v_cost⟩
                  workflows := parsed_result.workflows
                  automation_opportunities := parsed_result.automation_opportunities
                  time_analysis := parsed_result.time_analysis
                  insights := parsed_result.insights
                  summary := match parsed_result.summary with
                    | some s => SummaryField.parsed s
                    | none => SummaryField.zeroed
                  confidence_score := some parsed_result.confidence_score
                  pipeline_status := status3
                  processing_cost := _calculate_total_cost frames.length tokens }

/-! ## Concrete inputs used by counterexamples and witnesses -/

/-- An opportunity dict with no fields supplied: every `.get` falls back
to its default, so the computed time savings are zero. -/
def zeroOpp : Opportunity := {}

/-- An opportunity whose `implementation_complexity` is `"low"` — a value
of the data model's `{low, medium, high}` vocabulary. -/
def lowOpp : Opportunity := { implementation_complexity := some "low" }

/-- An opportunity reporting 60 minutes saved daily. -/
def posOpp : Opportunity := { time_saved_daily_minutes := some 60 }

/-- The fixed cost tiers the code actually implements: the lowercased
complexity selects `simple → 5000`, `moderate → 15000`,
`complex → 50000`, and every other value — including the data model's
`low`, `medium` and `high` — falls back to 15000. -/
def cost_tier_table (complexity : String) : ℚ :=
  if pyLower complexity = "simple" then 5000
  else if pyLower complexity = "moderate" then 15000
  else if pyLower complexity = "complex" then 50000
  else 15000

/-- Custom extraction settings requesting 1 FPS with a `max_frames`
budget of 3 — a valid strategy input (`max_frames ≥ 1`, fps within the
configured `[0.1, 3.0]` range). -/
def c2set : ExtractionSettingsIn :=
  { fps := some 1, max_frames := some 3, scene_threshold := some 0.2 }

/-! ## Shared lemmas -/

/-- Rounding zero gives zero at any precision. -/
theorem pyRound_zero (d : ℕ) : pyRound d 0 = 0 := by
  unfold pyRound bankersRound
  norm_num

/-- Every implementation-cost lookup result is positive (the table values
are 5000, 15000, 50000 and the fallback is 15000). -/
theorem opp_implementation_cost_pos (opp : Opportunity) :
    0 < opp_implementation_cost opp := by
  unfold opp_implementation_cost IMPLEMENTATION_COSTS
  split_ifs <;> norm_num

/-- A non-empty opportunity list has positive total implementation cost. -/
theorem total_implementation_cost_pos (opps : List Opportunity) (h : opps ≠ []) :
    0 < total_implementation_cost opps := by
  match opps, h with
  | o :: os, _ =>
    unfold total_implementation_cost
    rw [List.map_cons, List.sum_cons]
    have h1 : 0 < opp_implementation_cost o := opp_implementation_cost_pos o
    have h2 : 0 ≤ (os.map opp_implementation_cost).sum := by
      apply List.sum_nonneg
      intro x hx
      obtain ⟨o2, _, rfl⟩ := List.mem_map.mp hx
      exact (opp_implementation_cost_pos o2).le
    linarith

/-! ## C1: duration reconstructed from `visible_in_frames` -/

/-- C1 (counterexample): for the duplicate-bearing list `[0, 0]` the
reconstructed duration is `len(list) = 2`, not `len(set(list)) = 1`, so
the claimed `reconstructed_duration_seconds == len(set(list))` fails. -/
theorem C1_counterexample :
    (_calculate_time_from_frames [0, 0]).seconds = 2 ∧
    (([0, 0] : List ℤ).dedup).length = 1 ∧
    (_calculate_time_from_frames [0, 0]).seconds ≠ (([0, 0] : List ℤ).dedup).length := by
  decide

/-- C1 (amended): for every `visible_in_frames` list (in any order,
possibly with duplicates) the reconstructed duration in seconds equals
the length of the list — duplicates are counted, so it equals the number
of distinct elements only for duplicate-free lists; in particular the
empty list yields duration 0 rather than an error. -/
theorem C1_duration_is_list_length (l : List ℤ) :
    (_calculate_time_from_frames l).seconds = l.length := by
  unfold _calculate_time_from_frames
  split
  · next h =>
    rw [List.isEmpty_iff] at h
    simp [h]
  · rfl

/-! ## C3: retry count and backoff delays -/

/-- C3 (counterexample): when every attempt fails, the run makes 3
attempts but sleeps only twice — `base * 1` and `base * 2` seconds; there
is no third `base * 4` delay, so the claimed 1x, 2x, 4x delay sequence
does not occur. -/
theorem C3_counterexample :
    (_call_with_retry (fun _ => (Except.error "rate limit" : Except String Unit))).attempts = 3 ∧
    (_call_with_retry (fun _ => (Except.error "rate limit" : Except String Unit))).delays =
      [gpt_retry_delay, gpt_retry_delay * 2] ∧
    (_call_with_retry (fun _ => (Except.error "rate limit" : Except String Unit))).delays ≠
      [gpt_retry_delay, gpt_retry_delay * 2, gpt_retry_delay * 4] := by
  refine ⟨?_, ?_, ?_⟩ <;>
    simp [_call_with_retry, gpt_max_retries, gpt_retry_delay, retryLoop]

/-- C3 (amended): when every model-call attempt fails, the client makes
exactly `max_retries = 3` attempts, and before the retry that follows
failed attempt `k` (only `k = 0, 1`, since no retry follows the final
attempt) it waits `base_delay * 2 ^ k` seconds — so the delays are
1x and 2x the base delay (there is no 4x delay) — and then reports
failure. -/
theorem C3_three_attempts_two_delays {E R : Type} (f : ℕ → Except E R)
    (h : ∀ k, ∃ e, f k = Except.error e) :
    (_call_with_retry f).attempts = 3 ∧
    (_call_with_retry f).delays = [gpt_retry_delay * 2 ^ 0, gpt_retry_delay * 2 ^ 1] ∧
    (_call_with_retry f).result = none := by
  obtain ⟨e0, h0⟩ := h 0
  obtain ⟨e1, h1⟩ := h 1
  obtain ⟨e2, h2⟩ := h 2
  simp [_call_with_retry, gpt_max_retries, retryLoop, h0, h1, h2]

/-- C3 (witness): the amended theorem applied to a concrete
always-failing call. -/
theorem C3_three_attempts_two_delays_witness :
    (_call_with_retry (fun _ => (Except.error () : Except Unit Unit))).attempts = 3 ∧
    (_call_with_retry (fun _ => (Except.error () : Except Unit Unit))).delays =
      [gpt_retry_delay * 2 ^ 0, gpt_retry_delay * 2 ^ 1] ∧
    (_call_with_retry (fun _ => (Except.error () : Except Unit Unit))).result = none :=
  C3_three_attempts_two_delays (fun _ => Except.error ()) (fun _ => ⟨(), rfl⟩)

/-! ## C4: failure classification and retries -/

/-- C4 (counterexample): a failure whose message classifies as
malformed-request (`invalid_request_error`) is retried like any other —
the run makes 3 attempts, not the claimed single attempt with immediate
propagation. -/
theorem C4_counterexample :
    classify_error "invalid_request_error: bad image" = "malformed_request" ∧
    (_call_with_retry
      (fun _ => (Except.error "invalid_request_error: bad image" : Except String Unit))).attempts = 3 ∧
    (_call_with_retry
      (fun _ => (Except.error "invalid_request_error: bad image" : Except String Unit))).attempts ≠ 1 := by
  decide

/-- C4 (amended): the retry loop never inspects the failure class —
classification (`classify_error`) only selects a log message.  Every
failure, including malformed-request and context-length ones, is retried:
with all attempts failing the client makes 3 attempts and then returns a
failure value instead of propagating, and a call that fails once (with
any error whatsoever) and then succeeds is retried and returns the
second attempt's response. -/
theorem C4_all_failures_retried :
    (∀ (E R : Type) (f : ℕ → Except E R), (∀ k, ∃ e, f k = Except.error e) →
      (_call_with_retry f).attempts = 3 ∧ (_call_with_retry f).result = none) ∧
    (∀ (E R : Type) (f : ℕ → Except E R) (r : R),
      (∃ e, f 0 = Except.error e) → f 1 = Except.ok r →
      (_call_with_retry f).attempts = 2 ∧ (_call_with_retry f).result = some r) := by
  constructor
  · intro E R f h
    obtain ⟨e0, h0⟩ := h 0
    obtain ⟨e1, h1⟩ := h 1
    obtain ⟨e2, h2⟩ := h 2
    simp [_call_with_retry, gpt_max_retries, retryLoop, h0, h1, h2]
  · intro E R f r h0 h1
    obtain ⟨e0, h0⟩ := h0
    simp [_call_with_retry, gpt_max_retries, retryLoop, h0, h1]

/-- C4 (witness): the amended theorem applied to a concrete
always-failing call and to a concrete fail-once-then-succeed call. -/
theorem C4_all_failures_retried_witness :
    ((_call_with_retry (fun _ => (Except.error "ctx" : Except String ℕ))).attempts = 3 ∧
      (_call_with_retry (fun _ => (Except.error "ctx" : Except String ℕ))).result = none) ∧
    ((_call_with_retry (fun k => if k = 0 then (Except.error "boom" : Except String ℕ)
        else Except.ok 7)).attempts = 2 ∧
      (_call_with_retry (fun k => if k = 0 then (Except.error "boom" : Except String ℕ)
        else Except.ok 7)).result = some 7) :=
  ⟨C4_all_failures_retried.1 String ℕ _ (fun _ => ⟨"ctx", rfl⟩),
    C4_all_failures_retried.2 String ℕ _ 7 ⟨"boom", rfl⟩ rfl⟩

/-- The zero opportunity saves zero actual minutes. -/
theorem zeroOpp_actual : opp_actual_daily_minutes zeroOpp = 0 := by
  simp [opp_actual_daily_minutes, opp_daily_minutes, zeroOpp]

/-- A list holding only the zero opportunity has zero total saved minutes. -/
theorem total_daily_zeroOpp : total_daily_minutes_saved [zeroOpp] = 0 := by
  simp [total_daily_minutes_saved, zeroOpp_actual, pyRound_zero]

/-- Zero saved minutes give zero monthly savings at any rate. -/
theorem monthly_zeroOpp (r : ℚ) : monthly_savings_agg [zeroOpp] r = 0 := by
  simp [monthly_savings_agg, total_daily_zeroOpp]

/-- Zero saved minutes give zero annual savings at any rate. -/
theorem annual_zeroOpp (r : ℚ) : annual_savings_agg [zeroOpp] r = 0 := by
  simp [annual_savings_agg, total_annual_hours_saved, total_daily_zeroOpp]

/-- Zero saved minutes give a zero payback period at any rate. -/
theorem payback_zeroOpp (r : ℚ) : payback_months_agg [zeroOpp] r = 0 := by
  simp [payback_months_agg, monthly_zeroOpp]

/-- Zero saved minutes give a zero ROI percentage at any rate. -/
theorem roi_zeroOpp (r : ℚ) : roi_percentage_agg [zeroOpp] r = 0 := by
  simp [roi_percentage_agg, monthly_zeroOpp]

/-! ## C5: zero-savings lists and the reported priority -/

/-- C5 (counterexample): a non-empty opportunity list with zero computed
annual savings gets implementation priority `"immediate"` (because
`payback_months = 0 ≤ 3`), not the claimed `"none"`. -/
theorem C5_counterexample :
    annual_savings_agg [zeroOpp] (effective_hourly_rate (some 25)) ≤ 0 ∧
    (calculate_roi [zeroOpp] (some 25) none "t").implementation.priority = "immediate" ∧
    (calculate_roi [zeroOpp] (some 25) none "t").implementation.priority ≠ "none" := by
  refine ⟨by simp [annual_zeroOpp], ?_, ?_⟩ <;>
    · simp [calculate_roi, payback_zeroOpp, roi_zeroOpp, annual_zeroOpp]
      try decide

/-- C5 (amended): for every non-empty opportunity list whose computed
annual savings are ≤ 0, the engine reports `payback_period_months = 0`
and `roi_percentage = 0` and never divides by zero (the division is
guarded by `monthly_savings > 0 and total_implementation_cost > 0`) —
but the implementation priority is flagged `"immediate"` (payback 0 ≤ 3
months), not `"none"`; `"none"` is only reported for an *empty*
opportunity list. -/
theorem C5_zero_savings_flags (opps : List Opportunity) (hr budget : Option ℚ)
    (t : String) (h1 : opps ≠ [])
    (h2 : annual_savings_agg opps (effective_hourly_rate hr) ≤ 0) :
    (calculate_roi opps hr budget t).implementation.payback_period_months = 0 ∧
    (calculate_roi opps hr budget t).implementation.roi_percentage = 0 ∧
    (calculate_roi opps hr budget t).implementation.priority = "immediate" := by
  set r := effective_hourly_rate hr with hrdef
  have hmon : monthly_savings_agg opps r ≤ 0 := by
    have key : monthly_savings_agg opps r * 25 = annual_savings_agg opps r * 2 := by
      unfold monthly_savings_agg annual_savings_agg total_annual_hours_saved
        DEFAULT_WORKING_DAYS
      ring
    nlinarith [key, h2]
  have hguard : ¬(0 < monthly_savings_agg opps r ∧ 0 < total_implementation_cost opps) := by
    rintro ⟨hm, _⟩
    linarith
  have hpay : payback_months_agg opps r = 0 := by
    unfold payback_months_agg
    rw [if_neg hguard]
  have hroi : roi_percentage_agg opps r = 0 := by
    unfold roi_percentage_agg
    rw [if_neg hguard]
  have hne : opps.isEmpty = false := by
    cases opps with
    | nil => exact absurd rfl h1
    | cons o os => rfl
  refine ⟨?_, ?_, ?_⟩ <;>
    simp [calculate_roi, hne, ← hrdef, hpay, hroi, pyRound_zero]
  norm_num [_determine_priority]

/-- C5 (witness): the amended theorem applied to the concrete zero
opportunity at rate 25. -/
theorem C5_zero_savings_flags_witness :
    annual_savings_agg [zeroOpp] (effective_hourly_rate (some 25)) ≤ 0 ∧
    ((calculate_roi [zeroOpp] (some 25) none "t").implementation.payback_period_months = 0 ∧
      (calculate_roi [zeroOpp] (some 25) none "t").implementation.roi_percentage = 0 ∧
      (calculate_roi [zeroOpp] (some 25) none "t").implementation.priority = "immediate") :=
  ⟨by simp [annual_zeroOpp],
    C5_zero_savings_flags [zeroOpp] (some 25) none "t" (List.cons_ne_nil _ _)
      (by simp [annual_zeroOpp])⟩

/-! ## C6: the implementation-cost tiers -/

/-- C6 (counterexample): an opportunity with `implementation_complexity =
"low"` — a value of the data model's `{low, medium, high}` vocabulary —
is costed at the 15000 default, not at the claimed 5000 tier, because the
cost table is keyed by `simple`/`moderate`/`complex`. -/
theorem C6_counterexample :
    (_calculate_opportunity_metrics lowOpp 25).implementation_cost = 15000 ∧
    (_calculate_opportunity_metrics lowOpp 25).implementation_cost ≠ 5000 := by
  decide

/-- C6 (amended): for every opportunity, the per-opportunity
implementation cost equals the fixed tier selected by its
`implementation_complexity` value (default `"moderate"`) under the
`cost_tier_table` keying — `simple → 5000`, `moderate → 15000`,
`complex → 50000`, anything else (including `low`/`medium`/`high`)
→ 15000. -/
theorem C6_cost_tiers (opp : Opportunity) (rate : ℚ) :
    (_calculate_opportunity_metrics opp rate).implementation_cost =
      cost_tier_table (opp.implementation_complexity.getD "moderate") := by
  show opp_implementation_cost opp = _
  unfold opp_implementation_cost cost_tier_table IMPLEMENTATION_COSTS opp_complexity
  split_ifs <;> simp

/-! ## C10: purity of the ROI computation -/

/-- C10: `calculate_roi` is a pure function of its inputs — the embedding
passes the wall-clock reading in explicitly, and the only field that
depends on it is the `timestamp` metadata: two invocations on the same
opportunity list, hourly rate and budget agree on every `ROIResult` field
of the data model (`time_savings`, `cost_savings`, `implementation`,
`opportunities`, `recommendations`, `executive_summary`), at whatever
times they are invoked. -/
theorem C10_roi_pure_modulo_timestamp (opps : List Opportunity)
    (hr budget : Option ℚ) (t1 t2 : String) :
    stripTimestamp (calculate_roi opps hr budget t1) =
      stripTimestamp (calculate_roi opps hr budget t2) := by
  by_cases h : opps.isEmpty <;>
    simp [calculate_roi, stripTimestamp, _empty_roi_result, h]

/-! ## C7: priority-score ranges -/

/-- C7 (counterexample): an adversarial workflow with
`repetitive_score = -1` yields a workflow priority score of `-1`, outside
the claimed `[0, 1]` range — the formula caps the score at 1 above but
has no clamp at 0 below. -/
theorem C7_counterexample :
    calculate_priority_score "other" (-1) 0 = -1 ∧
    ¬(0 ≤ calculate_priority_score "other" (-1) 0) := by
  have h : calculate_priority_score "other" (-1) 0 = -1 := by
    unfold calculate_priority_score
    rw [if_neg (by decide : ¬("other" ∈ HIGH_PRIORITY_WORKFLOW_TYPES))]
    norm_num [min_def]
  exact ⟨h, by rw [h]; norm_num⟩

/-- C7 (amended): the workflow priority score
`min(repetitive_score * (1.3 if high-priority type else 1.0) +
min(time_percentage / 100, 0.5), 1.0)` lies in `[0, 1]` whenever the
supplied `repetitive_score` and `time_percentage` are non-negative (there
is no lower clamp, so negative inputs escape the range); the opportunity
priority score `min(100, potential_weight * complexity_weight *
sqrt(max(1, daily_minutes)) * 10)` lies in `[0, 100]` for *every* input,
adversarial ones included. -/
theorem C7_priority_bounds :
    (∀ (workflow_type : String) (repetitive_score time_percentage : ℚ),
      0 ≤ repetitive_score → 0 ≤ time_percentage →
      calculate_priority_score workflow_type repetitive_score time_percentage ∈
        Set.Icc (0 : ℚ) 1) ∧
    (∀ (potential complexity : String) (daily_savings : ℚ),
      _calculate_priority potential complexity daily_savings ∈ Set.Icc (0 : ℝ) 100) := by
  constructor
  · intro workflow_type repetitive_score time_percentage hrs htp
    unfold calculate_priority_score
    constructor
    · apply le_min _ (by norm_num)
      have hbase : (0 : ℚ) ≤ if workflow_type ∈ HIGH_PRIORITY_WORKFLOW_TYPES then
          repetitive_score * 1.3 else repetitive_score := by
        split_ifs
        · nlinarith
        · exact hrs
      have htf : (0 : ℚ) ≤ min (time_percentage / 100) 0.5 := by
        apply le_min (by positivity) (by norm_num)
      linarith
    · exact min_le_right _ _
  · intro potential complexity daily_savings
    unfold _calculate_priority
    constructor
    · apply le_min (by norm_num)
      have hs : (0 : ℝ) ≤ Real.sqrt (max 1 (daily_savings : ℝ)) := Real.sqrt_nonneg _
      positivity
    · exact min_le_left _ _

/-- C7 (witness): the amended theorem applied to a concrete sane workflow
input and a concrete opportunity input. -/
theorem C7_priority_bounds_witness :
    (0 : ℚ) ≤ 1 / 2 ∧ (0 : ℚ) ≤ 10 ∧
    calculate_priority_score "data_entry" (1 / 2) 10 ∈ Set.Icc (0 : ℚ) 1 ∧
    _calculate_priority "high" "low" 0 ∈ Set.Icc (0 : ℝ) 100 :=
  ⟨by norm_num, by norm_num,
    C7_priority_bounds.1 "data_entry" (1 / 2) 10 (by norm_num) (by norm_num),
    C7_priority_bounds.2 "high" "low" 0⟩

/-! ## C8: ROI monotonicity in the hourly rate -/

/-- C8 (counterexample): holding the opportunity list fixed at a single
opportunity that saves no time, the reported ROI percentage is 0 at both
rate 10 and rate 20 — it does not strictly increase with the hourly
rate. -/
theorem C8_counterexample :
    (10 : ℚ) < 20 ∧
    ¬((calculate_roi [zeroOpp] (some 10) none "t").implementation.roi_percentage <
      (calculate_roi [zeroOpp] (some 20) none "t").implementation.roi_percentage) := by
  constructor
  · norm_num
  · simp [calculate_roi, roi_zeroOpp, pyRound_zero]

/-- C8 (amended): holding the opportunity list fixed, the internally
computed `roi_percentage` strictly increases with the hourly rate
*provided* the list is non-empty, its total (rounded) saved daily minutes
are positive, and the rates are positive (`0 < r1 < r2`); with zero saved
minutes the guard zeroes the ROI at every rate, so no strict increase.
The reported figure is this value rounded to one decimal. -/
theorem C8_roi_strictly_increasing (opps : List Opportunity)
    (budget : Option ℚ) (t : String) (r1 r2 : ℚ) (hne : opps ≠ [])
    (hpos : 0 < total_daily_minutes_saved opps) (hr1 : 0 < r1) (h12 : r1 < r2) :
    roi_percentage_agg opps r1 < roi_percentage_agg opps r2 ∧
    (calculate_roi opps (some r1) budget t).implementation.roi_percentage =
      pyRound 1 (roi_percentage_agg opps r1) ∧
    (calculate_roi opps (some r2) budget t).implementation.roi_percentage =
      pyRound 1 (roi_percentage_agg opps r2) := by
  have hr2 : 0 < r2 := hr1.trans h12
  have hcost : 0 < total_implementation_cost opps := total_implementation_cost_pos opps hne
  have hm1 : 0 < monthly_savings_agg opps r1 := by
    unfold monthly_savings_agg
    positivity
  have hm2 : 0 < monthly_savings_agg opps r2 := by
    unfold monthly_savings_agg
    positivity
  have hA : annual_savings_agg opps r1 < annual_savings_agg opps r2 := by
    unfold annual_savings_agg total_annual_hours_saved DEFAULT_WORKING_DAYS
    have hH : 0 < total_daily_minutes_saved opps / 60 * 250 := by positivity
    exact mul_lt_mul_of_pos_left h12 hH
  have hne2 : opps.isEmpty = false := by
    cases opps with
    | nil => exact absurd rfl hne
    | cons o os => rfl
  have he1 : effective_hourly_rate (some r1) = r1 := by
    simp [effective_hourly_rate, hr1.ne']
  have he2 : effective_hourly_rate (some r2) = r2 := by
    simp [effective_hourly_rate, hr2.ne']
  refine ⟨?_, ?_, ?_⟩
  · unfold roi_percentage_agg
    rw [if_pos ⟨hm1, hcost⟩, if_pos ⟨hm2, hcost⟩]
    have hdiv : (annual_savings_agg opps r1 - total_implementation_cost opps) /
        total_implementation_cost opps <
        (annual_savings_agg opps r2 - total_implementation_cost opps) /
        total_implementation_cost opps :=
      (div_lt_div_iff_of_pos_right hcost).mpr (sub_lt_sub_right hA _)
    nlinarith [hdiv]
  · simp [calculate_roi, hne2, he1]
  · simp [calculate_roi, hne2, he2]

/-- The positive opportunity saves 45 effective daily minutes
(60 reported times the default 0.75 efficiency). -/
theorem posOpp_actual : opp_actual_daily_minutes posOpp = 45 := by
  simp [opp_actual_daily_minutes, opp_daily_minutes, opp_efficiency, opp_potential,
    AUTOMATION_EFFICIENCY, posOpp]
  norm_num

/-- A list holding only the positive opportunity totals 45 saved
minutes. -/
theorem tdms_posOpp : total_daily_minutes_saved [posOpp] = 45 := by
  simp [total_daily_minutes_saved, posOpp_actual, pyRound, bankersRound]
  norm_num

/-- C8 (witness): the amended theorem applied to a single opportunity
saving 60 reported minutes daily (45 effective), at rates 10 < 20. -/
theorem C8_roi_strictly_increasing_witness :
    0 < total_daily_minutes_saved [posOpp] ∧ (0 : ℚ) < 10 ∧ (10 : ℚ) < 20 ∧
    (roi_percentage_agg [posOpp] 10 < roi_percentage_agg [posOpp] 20 ∧
      (calculate_roi [posOpp] (some 10) none "t").implementation.roi_percentage =
        pyRound 1 (roi_percentage_agg [posOpp] 10) ∧
      (calculate_roi [posOpp] (some 20) none "t").implementation.roi_percentage =
        pyRound 1 (roi_percentage_agg [posOpp] 20)) :=
  ⟨by rw [tdms_posOpp]; norm_num,
    by norm_num, by norm_num,
    C8_roi_strictly_increasing [posOpp] none "t" 10 20 (List.cons_ne_nil _ _)
      (by rw [tdms_posOpp]; norm_num)
      (by norm_num) (by norm_num)⟩

/-! ## C9: the orchestrator envelope -/

/-- C9: for every combination of stage outcomes — returned stage values,
stage-level failures, and exceptions raised by any stage (all caught by
the orchestrator's `try/except`) — `analyze_recording` returns either a
complete success envelope (`success = true`, no error, all three pipeline
steps recorded) or a structured failure envelope carrying an error
message and only the pipeline steps accumulated before the failing stage;
it never propagates a raw exception (the embedding is a total function of
the stage outcomes). -/
theorem C9_envelope_total {W O TA I S : Type} (session_id analysis_type : String)
    (frame_call : StageOutcome FrameExtractionResult)
    (gpt_call : StageOutcome GptResult)
    (parse_call : StageOutcome (ParsedResult W O TA I S))
    (now : String) (processing_time : ℚ) :
    ((analyze_recording session_id analysis_type frame_call gpt_call parse_call
        now processing_time).success = true ∧
      (analyze_recording session_id analysis_type frame_call gpt_call parse_call
        now processing_time).error = none ∧
      (analyze_recording session_id analysis_type frame_call gpt_call parse_call
        now processing_time).pipeline_status.steps_completed.length = 3) ∨
    ((analyze_recording session_id analysis_type frame_call gpt_call parse_call
        now processing_time).success = false ∧
      (analyze_recording session_id analysis_type frame_call gpt_call parse_call
        now processing_time).error.isSome = true ∧
      (analyze_recording session_id analysis_type frame_call gpt_call parse_call
        now processing_time).pipeline_status.steps_completed.length < 3) := by
  cases frame_call with
  | raised m =>
    right
    simp [analyze_recording, _create_error_result]
  | ok frame_result =>
    cases herr : frame_result.error with
    | some e =>
      right
      simp [analyze_recording, _create_error_result, herr]
    | none =>
      by_cases hfr : frame_result.frames.isEmpty
      · right
        simp [analyze_recording, _create_error_result, herr, hfr]
      · cases gpt_call with
        | raised m =>
          right
          simp [analyze_recording, _create_error_result, herr, hfr]
        | ok gpt_result =>
          by_cases hgs : gpt_result.success = false
          · right
            simp [analyze_recording, _create_error_result, herr, hfr, hgs]
          · cases parse_call with
            | raised m =>
              right
              simp [analyze_recording, _create_error_result, herr, hfr, hgs]
            | ok parsed_result =>
              by_cases hps : parsed_result.success = false
              · right
                simp [analyze_recording, _create_error_result, herr, hfr, hgs, hps]
              · left
                simp [analyze_recording, herr, hfr, hgs, hps]

/-! ## C2: frame indices and the frame-count bound -/

/-- Python `int()` agrees with the floor on non-negative values. -/
theorem pyInt_eq_floor (q : ℚ) (h : 0 ≤ q) : pyInt q = ⌊q⌋ := by
  unfold pyInt
  rw [if_neg (not_lt.mpr h)]

/-- The validated FPS is always positive (invalid values fall back to 30). -/
theorem validated_fps_pos (raw_fps : ℚ) : 0 < validated_fps raw_fps := by
  unfold validated_fps
  split_ifs with h
  · norm_num
  · push_neg at h
    exact h.1

/-- Adding at least 1 strictly increases the floor. -/
theorem floor_lt_floor_add_of_one_le (a c : ℚ) (hc : 1 ≤ c) : ⌊a⌋ < ⌊a + c⌋ := by
  have h1 : ⌊a⌋ + 1 ≤ ⌊a + c⌋ := by
    rw [← Int.floor_add_one a]
    exact Int.floor_le_floor (by linarith)
  omega

/-- When each sampling step advances the source by at least one frame
(`interval * fps ≥ 1`), the generated candidate indices are strictly
increasing, and every generated index is at least the index of the
current step. -/
theorem generate_frame_indices_mono (interval fps dur : ℚ) (total : ℕ)
    (hfps : 0 < fps) (hc : 1 ≤ interval * fps) :
    ∀ (fuel i : ℕ),
      (generate_frame_indices interval fps dur total fuel i).Pairwise (· < ·) ∧
      ∀ x ∈ generate_frame_indices interval fps dur total fuel i,
        pyInt ((i : ℚ) * interval * fps) ≤ x := by
  have hint : 0 < interval := by
    rcases mul_pos_iff.mp (lt_of_lt_of_le one_pos hc) with ⟨h1, _⟩ | ⟨_, h2⟩
    · exact h1
    · linarith
  intro fuel
  induction fuel with
  | zero =>
    intro i
    simp [generate_frame_indices]
  | succ n ih =>
    intro i
    have hnn : (0 : ℚ) ≤ (i : ℚ) * interval * fps := by positivity
    have hstep : pyInt ((i : ℚ) * interval * fps) <
        pyInt (((i + 1 : ℕ) : ℚ) * interval * fps) := by
      rw [pyInt_eq_floor _ hnn, pyInt_eq_floor _ (by positivity)]
      have heq : ((i + 1 : ℕ) : ℚ) * interval * fps =
          (i : ℚ) * interval * fps + interval * fps := by
        push_cast
        ring
      rw [heq]
      exact floor_lt_floor_add_of_one_le _ _ hc
    obtain ⟨ihp, ihb⟩ := ih (i + 1)
    constructor
    · simp only [generate_frame_indices]
      split_ifs with h1 h2
      · exact List.Pairwise.nil
      · refine List.Pairwise.cons ?_ ihp
        intro y hy
        exact lt_of_lt_of_le hstep (ihb y hy)
      · exact ihp
    · simp only [generate_frame_indices]
      split_ifs with h1 h2
      · intro x hx
        simp at hx
      · intro x hx
        rcases List.mem_cons.mp hx with rfl | hx2
        · exact le_refl _
        · exact le_of_lt (lt_of_lt_of_le hstep (ihb x hx2))
      · intro x hx
        exact le_trans (le_of_lt hstep) (ihb x hx)

/-- At most `fuel` candidate indices are generated. -/
theorem generate_frame_indices_length (interval fps dur : ℚ) (total : ℕ) :
    ∀ (fuel i : ℕ),
      (generate_frame_indices interval fps dur total fuel i).length ≤ fuel := by
  intro fuel
  induction fuel with
  | zero =>
    intro i
    simp [generate_frame_indices]
  | succ n ih =>
    intro i
    simp only [generate_frame_indices]
    split_ifs
    · simp
    · simpa using Nat.succ_le_succ (ih (i + 1))
    · exact le_trans (ih (i + 1)) (Nat.le_succ n)

/-- The frame indices kept by the reading loop form a sublist of the
candidate indices it was given. -/
theorem extract_loop_sublist (read : ℤ → Bool) (sd : Bool) (sk : ℤ → Bool)
    (fps : ℚ) (im : ℕ) :
    ∀ (l : List (ℕ × ℤ)) (cnt : ℕ),
      ((extract_loop read sd sk fps im l cnt).map FrameData.frame_index).Sublist
        (l.map Prod.snd) := by
  intro l
  induction l with
  | nil =>
    intro cnt
    simp [extract_loop]
  | cons p rest ih =>
    intro cnt
    obtain ⟨idx, fi⟩ := p
    simp only [extract_loop, List.map_cons]
    split_ifs with h1 h2 h3
    · exact (ih cnt).cons _
    · exact (ih cnt).cons _
    · simp only [List.map_cons, List.map_nil, _prepare_frame_for_gpt4v]
      exact (List.nil_sublist _).cons₂ _
    · exact ((ih (cnt + 1)).cons₂ _)

/-- When the requested `max_frames` budget is at least the hard floor of
5, the strategy's `target_frames` respects it. -/
theorem target_frames_le_max (mode : String) (duration : ℤ)
    (es : Option ExtractionSettingsIn)
    (h : 5 ≤ (_calculate_extraction_strategy mode duration es).max_frames) :
    (_calculate_extraction_strategy mode duration es).target_frames ≤
      (_calculate_extraction_strategy mode duration es).max_frames := by
  simp only [_calculate_extraction_strategy] at h ⊢
  omega

/-- The concrete strategy of the C2 counterexample: duration 100 s at
1 FPS with a requested budget of 3 frames gives `target_frames =
max(5, min(3, 100)) = 5`, overrunning the requested budget. -/
theorem c2_strategy_eval :
    _calculate_extraction_strategy "testing" 100 (some c2set) =
      { method := "interval_based", interval_seconds := 1, frames_per_second := 1,
        target_frames := 5, max_frames := 3, scene_threshold := 0.2,
        duration_seconds := 100, scene_detection := false,
        focus_areas := ["email_interface", "wms_forms", "data_entry"],
        extraction_mode := "testing", estimated_frame_count := 3,
        estimated_cost := 3 / 100 } := by
  simp [_calculate_extraction_strategy, c2set, pyInt, DEFAULT_FRAMES_PER_SECOND,
    COST_PER_GPT4V_REQUEST]
  norm_num

/-- Running the extraction loop of the C2 counterexample on a readable
30-FPS, 3000-frame source returns 5 frames. -/
theorem c2_run_eval :
    (_extract_frames_smart (_calculate_extraction_strategy "testing" 100 (some c2set))
      30 3000 (fun _ => true) (fun _ => false) (instance_max_frames "testing")).length = 5 := by
  rw [c2_strategy_eval]
  norm_num [_extract_frames_smart, validated_fps, generate_frame_indices, pyInt,
    extract_loop, instance_max_frames, List.enum, List.enumFrom]

/-- C2 (counterexample): for a recording of positive duration (100 s) and
a valid extraction strategy requesting `max_frames = 3`, the sampler
returns 5 frames — more than `strategy.max_frames` — because
`target_frames = max(5, ...)` enforces a floor of 5 and the in-loop cap
uses the extractor instance's own limit instead of the strategy's. -/
theorem C2_counterexample :
    (0 : ℤ) < 100 ∧
    (_calculate_extraction_strategy "testing" 100 (some c2set)).max_frames = 3 ∧
    (_extract_frames_smart (_calculate_extraction_strategy "testing" 100 (some c2set))
      30 3000 (fun _ => true) (fun _ => false) (instance_max_frames "testing")).length = 5 ∧
    ¬((_extract_frames_smart (_calculate_extraction_strategy "testing" 100 (some c2set))
      30 3000 (fun _ => true) (fun _ => false) (instance_max_frames "testing")).length ≤
      (_calculate_extraction_strategy "testing" 100 (some c2set)).max_frames) := by
  refine ⟨by norm_num, ?_, c2_run_eval, ?_⟩
  · rw [c2_strategy_eval]
  · rw [c2_run_eval, c2_strategy_eval]
    norm_num

/-- C2 (amended): for every duration and extraction-settings input, any
video source, and any read/scene oracles, the sampler's output has
strictly increasing `frame_index` values and at most `strategy.max_frames`
frames, *provided* `strategy.max_frames ≥ 5` (the code floors
`target_frames` at 5, so smaller budgets can be exceeded) and the
sampling step covers at least one source frame
(`interval_seconds * native_fps ≥ 1`; with a requested rate above the
native rate, `int(i * interval * fps)` repeats and indices are only
non-decreasing). -/
theorem C2_frames_sorted_bounded (mode : String) (duration : ℤ)
    (es : Option ExtractionSettingsIn) (raw_fps : ℚ) (total_frames : ℕ)
    (read scene_skip : ℤ → Bool) (inst_max : ℕ)
    (_hdur : 0 < duration)
    (hmax : 5 ≤ (_calculate_extraction_strategy mode duration es).max_frames)
    (hrate : 1 ≤ (_calculate_extraction_strategy mode duration es).interval_seconds *
      validated_fps raw_fps) :
    ((_extract_frames_smart (_calculate_extraction_strategy mode duration es) raw_fps
        total_frames read scene_skip inst_max).map FrameData.frame_index).Pairwise (· < ·) ∧
    (_extract_frames_smart (_calculate_extraction_strategy mode duration es) raw_fps
        total_frames read scene_skip inst_max).length ≤
      (_calculate_extraction_strategy mode duration es).max_frames := by
  set st := _calculate_extraction_strategy mode duration es with hst
  have hfpos : 0 < validated_fps raw_fps := validated_fps_pos raw_fps
  unfold _extract_frames_smart
  by_cases h0 : total_frames = 0
  · simp [h0]
  · rw [if_neg h0]
    set fps := validated_fps raw_fps with hfps2
    set dur := (total_frames : ℚ) / fps with hdur2
    set idxs := generate_frame_indices st.interval_seconds fps dur total_frames
      st.target_frames 0 with hidx
    have hpair := (generate_frame_indices_mono st.interval_seconds fps dur total_frames
      hfpos hrate st.target_frames 0).1
    have hsub := extract_loop_sublist read st.scene_detection scene_skip fps inst_max
      idxs.enum 0
    have henum : idxs.enum.map Prod.snd = idxs := List.enum_map_snd idxs
    rw [henum] at hsub
    constructor
    · exact List.Pairwise.sublist hsub hpair
    · have h1 : (extract_loop read st.scene_detection scene_skip fps inst_max
          idxs.enum 0).length ≤ idxs.length := by
        have := hsub.length_le
        simpa using this
      have h3 : idxs.length ≤ st.target_frames :=
        generate_frame_indices_length st.interval_seconds fps dur total_frames
          st.target_frames 0
      have h4 : st.target_frames ≤ st.max_frames := target_frames_le_max mode duration es hmax
      show (extract_loop read st.scene_detection scene_skip fps inst_max
        idxs.enum 0).length ≤ st.max_frames
      omega

/-- C2 (witness): the amended theorem on the spec's end-to-end scenario —
60 s at 1 FPS with the default 120-frame budget over a 30-FPS source. -/
theorem C2_frames_sorted_bounded_witness :
    (0 : ℤ) < 60 ∧
    5 ≤ (_calculate_extraction_strategy "testing" 60 none).max_frames ∧
    1 ≤ (_calculate_extraction_strategy "testing" 60 none).interval_seconds *
      validated_fps 30 ∧
    (((_extract_frames_smart (_calculate_extraction_strategy "testing" 60 none) 30 1800
        (fun _ => true) (fun _ => false) (instance_max_frames "testing")).map
        FrameData.frame_index).Pairwise (· < ·) ∧
      (_extract_frames_smart (_calculate_extraction_strategy "testing" 60 none) 30 1800
        (fun _ => true) (fun _ => false) (instance_max_frames "testing")).length ≤
      (_calculate_extraction_strategy "testing" 60 none).max_frames) :=
  ⟨by norm_num,
    by norm_num [_calculate_extraction_strategy, DEFAULT_MAX_FRAMES_PER_VIDEO],
    by norm_num [_calculate_extraction_strategy, validated_fps, DEFAULT_FRAMES_PER_SECOND],
    C2_frames_sorted_bounded "testing" 60 none 30 1800 (fun _ => true) (fun _ => false)
      (instance_max_frames "testing") (by norm_num)
      (by norm_num [_calculate_extraction_strategy, DEFAULT_MAX_FRAMES_PER_VIDEO])
      (by norm_num [_calculate_extraction_strategy, validated_fps,
        DEFAULT_FRAMES_PER_SECOND])⟩
